import Mathlib

namespace AnkiTranslator

/-!
Shallow embedding of the anki-translator frontend (React + TypeScript).

Pure data is modelled by structures.  Each event handler is modelled as a
function from the pre-state and the outcomes of the network calls it performs
to the post-state: React setState calls become functional record updates, and
an awaited API call that may reject becomes an explicit `Except` argument
(`Except.error` is a rejected promise caught by the handler).  JavaScript
string truthiness (null and the empty string are falsy) is modelled by
`jsStringTruthy`.
-/

/-- One translation candidate as returned by the translate endpoint and
rendered by the Choosing view (client type `TranslationOption`). -/
structure TranslationOption where
  word : String
  translation : String
  part_of_speech : Option String
  context : Option String
deriving DecidableEq

/-- The formatted card draft held in TranslatePage state (`cardData`):
a note type id plus field name/value pairs in display order. -/
structure CardData where
  note_type_id : String
  fields : List (String × String)
deriving DecidableEq

/-- The phase union of TranslatePage
(`"translating" | "choosing" | "formatting" | "preview" | "saved"`). -/
inductive Phase
  | translating
  | choosing
  | formatting
  | preview
  | saved
deriving DecidableEq

/-- The React state of TranslatePage: one `useState` hook per field. -/
structure TState where
  phase : Phase
  error : String
  translations : List TranslationOption
  chosenTranslation : Option TranslationOption
  cardData : Option CardData
  saving : Bool
  addingNative : Bool
deriving DecidableEq

/-- The initial TranslatePage state (the `useState` initial values). -/
def initialTState : TState :=
  { phase := Phase.translating, error := "", translations := [],
    chosenTranslation := none, cardData := none, saving := false,
    addingNative := false }

/-- JavaScript truthiness of a nullable string: `null` and `""` are falsy. -/
def jsStringTruthy : Option String → Bool
  | none => false
  | some s => decide (s ≠ "")

/-- `formatWithTranslation` (TranslatePage.tsx lines 53-72): records the chosen
candidate, enters `formatting` and clears the error; on a successful
`formatCard` response it stores the new draft — overwriting `cardData`
wholesale — and enters `preview`; on a rejected call it records the message
and falls back to `choosing`.  The optional native-language argument of the
source only changes the request payload, so its effect is reflected in
`formatResult`. -/
def formatWithTranslation (s : TState) (opt : TranslationOption)
    (formatResult : Except String CardData) : TState :=
  let s1 : TState :=
    { s with chosenTranslation := some opt, phase := Phase.formatting,
             error := "" }
  match formatResult with
  | Except.ok result => { s1 with cardData := some result, phase := Phase.preview }
  | Except.error e => { s1 with error := e, phase := Phase.choosing }

/-- `loadTranslations` (TranslatePage.tsx lines 30-51): enters `translating`,
clears the error, then on success stores the candidate list and — exactly when
the list has length one — auto-advances by calling `formatWithTranslation`
with that single candidate, otherwise enters `choosing`; on a rejected
translate call it records the message and enters `choosing`. -/
def loadTranslations (s : TState)
    (translateResult : Except String (List TranslationOption))
    (formatResult : Except String CardData) : TState :=
  let s1 : TState := { s with phase := Phase.translating, error := "" }
  match translateResult with
  | Except.error e => { s1 with error := e, phase := Phase.choosing }
  | Except.ok result =>
      let s2 : TState := { s1 with translations := result }
      match result with
      | [] => { s2 with phase := Phase.choosing }
      | [only] => formatWithTranslation s2 only formatResult
      | _ :: _ :: _ => { s2 with phase := Phase.choosing }

/-- The ordered sequence of `setPhase` calls made by one `loadTranslations`
run, including the phases set inside `formatWithTranslation` when the
single-candidate auto-advance invokes it. -/
def loadTranslationsTrace
    (translateResult : Except String (List TranslationOption))
    (formatResult : Except String CardData) : List Phase :=
  Phase.translating ::
    match translateResult with
    | Except.error _ => [Phase.choosing]
    | Except.ok [] => [Phase.choosing]
    | Except.ok [_] =>
        Phase.formatting ::
          match formatResult with
          | Except.ok _ => [Phase.preview]
          | Except.error _ => [Phase.choosing]
    | Except.ok (_ :: _ :: _) => [Phase.choosing]

/-- The network calls one `handleAccept` run performs, by count. -/
structure AcceptCalls where
  createCardCalls : Nat
  acceptCardCalls : Nat
deriving DecidableEq

/-- `handleAccept` (TranslatePage.tsx lines 74-91): with no draft it returns at
once; otherwise it always calls `createCard`, and when that succeeds calls
`acceptCard` with the returned id.  Any rejection is caught: the message is
recorded and the phase is left unchanged (still `preview`); only full success
sets `saved`.  The created card id (`createResult` success value) lives only
in the local variable `result` of the source — no `TState` field retains it,
so a later run starts from scratch. -/
def handleAccept (s : TState)
    (createResult : Except String String)
    (acceptResult : Except String Unit) : TState × AcceptCalls :=
  match s.cardData with
  | none => (s, { createCardCalls := 0, acceptCardCalls := 0 })
  | some _ =>
      match createResult with
      | Except.error e =>
          ({ s with error := e, saving := false },
           { createCardCalls := 1, acceptCardCalls := 0 })
      | Except.ok _ =>
          match acceptResult with
          | Except.error e =>
              ({ s with error := e, saving := false },
               { createCardCalls := 1, acceptCardCalls := 1 })
          | Except.ok _ =>
              ({ s with phase := Phase.saved, saving := false },
               { createCardCalls := 1, acceptCardCalls := 1 })

/-- `handleAddNativeTranslation` (TranslatePage.tsx lines 93-108): with no
chosen candidate it returns at once; otherwise it calls `getMe`, and when the
profile carries a truthy native language it re-runs `formatWithTranslation`
with the same chosen candidate; a falsy native language or a rejected `getMe`
only records a message.  `addingNative` is reset in the `finally` block. -/
def handleAddNativeTranslation (s : TState)
    (getMeNativeLanguage : Except String (Option String))
    (formatResult : Except String CardData) : TState :=
  match s.chosenTranslation with
  | none => s
  | some chosen =>
      match getMeNativeLanguage with
      | Except.error e => { s with error := e, addingNative := false }
      | Except.ok native =>
          if jsStringTruthy native then
            { formatWithTranslation s chosen formatResult with
                addingNative := false }
          else
            { s with
                error := "Please set your native language in Settings first.",
                addingNative := false }

/-- The three Preview buttons (TranslatePage.tsx lines 211-229). -/
inductive PreviewIntent
  | accept
  | addNative
  | reject
deriving DecidableEq

/-- Which Preview buttons accept a click in state `s`: the Accept button is
`disabled` exactly while `saving`, the Add Native Translation button exactly
while `addingNative`, and the Reject button never. -/
def previewIntentEnabled (s : TState) : PreviewIntent → Bool
  | PreviewIntent.accept => !s.saving
  | PreviewIntent.addNative => !s.addingNative
  | PreviewIntent.reject => true

/-- What the Choosing view renders (TranslatePage.tsx lines 131-163): the
error banner when the error string is truthy, one button per stored candidate,
and always a Back-to-Words navigation button. -/
structure ChoosingView where
  shownError : Option String
  optionButtons : List TranslationOption
  backToWords : Bool
deriving DecidableEq

/-- Render function of the Choosing view. -/
def renderChoosingView (s : TState) : ChoosingView :=
  { shownError := if s.error = "" then none else some s.error,
    optionButtons := s.translations,
    backToWords := true }

/-- The duplicate-check response (client type of `api.checkDuplicate`). -/
structure DuplicateVerdict where
  is_duplicate : Bool
  duplicate_of_id : Option String
  explanation : Option String
deriving DecidableEq

/-- The duplicate warning stored by WordSelectPage (`duplicate` state). -/
structure DuplicateWarning where
  word : String
  explanation : String
  duplicate_of_id : Option String
deriving DecidableEq

/-- The React state of WordSelectPage. -/
structure WordSelectState where
  checking : Option String
  duplicate : Option DuplicateWarning
deriving DecidableEq

/-- The observable result of one `handleWordClick` run: the post-state, the
word passed to `onWordSelected` (when any), and whether the page navigated to
the translate route. -/
structure WordClickResult where
  state : WordSelectState
  selectedWord : Option String
  navigatedToTranslate : Bool
deriving DecidableEq

/-- `handleWordClick` (WordSelectPage, TranslatePage.tsx lines 441-475): with
no deck selected it selects the word and navigates at once; otherwise it runs
`checkDuplicate` — a positive verdict stores a duplicate warning (with a
default explanation when the response explanation is falsy), a negative
verdict selects the word and navigates, and a rejected call is swallowed by
the bare `catch`, also selecting the word and navigating.  The `finally`
block clears `checking`. -/
def handleWordClick (s : WordSelectState) (deckId word : String)
    (checkResult : Except String DuplicateVerdict) : WordClickResult :=
  if deckId = "" then
    { state := s, selectedWord := some word, navigatedToTranslate := true }
  else
    match checkResult with
    | Except.ok result =>
        if result.is_duplicate then
          { state :=
              { checking := none,
                duplicate := some
                  { word := word,
                    explanation :=
                      if jsStringTruthy result.explanation then
                        result.explanation.getD ""
                      else
                        "This word may already exist in your deck.",
                    duplicate_of_id := result.duplicate_of_id } },
            selectedWord := none,
            navigatedToTranslate := false }
        else
          { state := { checking := none, duplicate := none },
            selectedWord := some word,
            navigatedToTranslate := true }
    | Except.error _ =>
        { state := { checking := none, duplicate := none },
          selectedWord := some word,
          navigatedToTranslate := true }

/-- Whether a word button accepts a click: the buttons carry
`disabled` exactly while some duplicate check is running
(`checking` non-null, TranslatePage.tsx lines 491-502). -/
def wordButtonEnabled (s : WordSelectState) : Bool :=
  s.checking.isNone

/-- The auth state of the API client: the module-level in-memory `authToken`
and the durable localStorage entry under the key `token`. -/
structure AuthState where
  authToken : Option String
  storedToken : Option String
deriving DecidableEq

/-- Client module initialization (part_002 line 184):
`let authToken = localStorage.getItem("token")`. -/
def initAuthState (storedToken : Option String) : AuthState :=
  { authToken := storedToken, storedToken := storedToken }

/-- `setToken` (part_002 lines 186-193): assigns the in-memory token
unconditionally, then stores it when truthy and removes the stored entry
otherwise.  The empty string is falsy in JavaScript, so `setToken("")` keeps
it in memory while removing it from the durable store. -/
def setToken (token : Option String) : AuthState :=
  { authToken := token,
    storedToken := if jsStringTruthy token then token else none }

/-- `getToken` (part_002 lines 195-197). -/
def getToken (s : AuthState) : Option String :=
  s.authToken

/-- The Authorization header built by `request` (part_002 lines 207-209):
present exactly when the in-memory token is truthy. -/
def authorizationHeader (auth : AuthState) : Option String :=
  if jsStringTruthy auth.authToken then
    Option.map (fun t => "Bearer " ++ t) auth.authToken
  else none

/-- A gateway response as `request` observes it: `ok` is the 2xx flag,
`jsonDetail` describes `res.json()` — `none` when the body is not parseable
JSON, `some d` when it parses with `d` its (optional) `detail` field. -/
structure HttpResponse where
  ok : Bool
  status : Nat
  statusText : String
  jsonDetail : Option (Option String)
deriving DecidableEq

/-- The `error` object of the non-2xx path of `request` (part_002 line 218):
`await res.json().catch(() => ({ detail: res.statusText }))`, reduced to its
`detail` field. -/
def errorDetail (res : HttpResponse) : Option String :=
  match res.jsonDetail with
  | none => some res.statusText
  | some d => d

/-- The message of the Error thrown by `request` (part_002 line 223):
`error.detail || res.statusText`, with a missing or falsy detail falling back
to the status text. -/
def thrownErrorMessage (res : HttpResponse) : String :=
  match errorDetail res with
  | some d => if d = "" then res.statusText else d
  | none => res.statusText

/-- The observable outcome of one `request` run. -/
structure RequestOutcome where
  fetchIssued : Bool
  authHeader : Option String
  auth : AuthState
  redirectedToLogin : Bool
  thrownMessage : Option String
deriving DecidableEq

/-- `request` (part_002 lines 199-228): builds the headers, then always
issues the fetch — there is no early return when no token is present.  On a
2xx response it returns normally; on a 401 from a path other than the login
endpoint it clears the token and redirects to the login page before throwing;
every other non-2xx response just throws, with `thrownErrorMessage` as the
message.  (The Content-Type header, which does not bear on any claim, is not
modelled.) -/
def request (auth : AuthState) (path : String) (res : HttpResponse) :
    RequestOutcome :=
  if res.ok then
    { fetchIssued := true, authHeader := authorizationHeader auth,
      auth := auth, redirectedToLogin := false, thrownMessage := none }
  else if res.status = 401 ∧ path.startsWith "/auth/login" = false then
    { fetchIssued := true, authHeader := authorizationHeader auth,
      auth := setToken none, redirectedToLogin := true,
      thrownMessage := some (thrownErrorMessage res) }
  else
    { fetchIssued := true, authHeader := authorizationHeader auth,
      auth := auth, redirectedToLogin := false,
      thrownMessage := some (thrownErrorMessage res) }

/-- What a route wrapped in `ProtectedRoute` renders (part_002 lines 73-78). -/
inductive RouteElement
  | redirectToLogin
  | renderChildren
deriving DecidableEq

/-- `ProtectedRoute` (part_002 lines 73-78): redirects to the login route
exactly when `getToken()` is falsy. -/
def protectedRoute (token : Option String) : RouteElement :=
  if jsStringTruthy token then RouteElement.renderChildren
  else RouteElement.redirectToLogin

/-- The error kinds of the design (spec section 7, plus NotFound of 4.1). -/
inductive ApiFailure
  | Unauthenticated
  | ExtractionFailed
  | TranslationFailed
  | FormattingFailed
  | PersistenceFailed
  | ServiceUnavailable
  | NotFound
  | ValidationFailed
deriving DecidableEq

/-- Modelled from the spec: the backend translate service is not under src/
(only its client declaration at part_002 lines 256-269 and its caller in
TranslatePage are).  Spec section 4.1: `translate(word, deckId)` returns an
ordered sequence of TranslationCandidate of length 1 to 3 and fails with
`TranslationFailed`.  `raw` stands for the candidates the engine produced;
the service returns them in order exactly when they number 1 to 3 and fails
with `TranslationFailed` otherwise. -/
def translateService (raw : List TranslationOption) :
    Except ApiFailure (List TranslationOption) :=
  if 1 ≤ raw.length ∧ raw.length ≤ 3 then Except.ok raw
  else Except.error ApiFailure.TranslationFailed

/-- A concrete translation candidate, used by concrete-input theorems. -/
def sampleOption : TranslationOption :=
  { word := "Hund", translation := "dog", part_of_speech := some "noun",
    context := none }

/-- A concrete formatted draft, used by concrete-input theorems. -/
def sampleDraft : CardData :=
  { note_type_id := "basic", fields := [("Front", "Hund"), ("Back", "dog")] }

/-- A second concrete draft (with a native-language field), used by
concrete-input theorems. -/
def sampleDraft2 : CardData :=
  { note_type_id := "basic",
    fields := [("Front", "Hund"), ("Back", "dog"), ("Native", "perro")] }

/-- A concrete Preview-phase state holding `sampleDraft`. -/
def previewState : TState :=
  { phase := Phase.preview, error := "", translations := [sampleOption],
    chosenTranslation := some sampleOption, cardData := some sampleDraft,
    saving := false, addingNative := false }

/-- `previewState` while an Accept run is awaiting the persistence calls. -/
def savingPreviewState : TState :=
  { previewState with saving := true }

/-- A concrete idle WordSelectPage state. -/
def idleWordSelectState : WordSelectState :=
  { checking := none, duplicate := none }

/-- A concrete 2xx response. -/
def sampleOkResponse : HttpResponse :=
  { ok := true, status := 200, statusText := "OK", jsonDetail := some none }

/-- A concrete 401 response. -/
def sample401Response : HttpResponse :=
  { ok := false, status := 401, statusText := "Unauthorized",
    jsonDetail := some (some "Not authenticated") }

/-- A concrete 500 response with an unparseable body. -/
def sample500Response : HttpResponse :=
  { ok := false, status := 500, statusText := "Internal Server Error",
    jsonDetail := none }

/-- A concrete non-2xx response whose parsed body lacks a detail field and
whose status text is empty (HTTP/2 responses carry no reason phrase). -/
def emptyStatusTextResponse : HttpResponse :=
  { ok := false, status := 500, statusText := "", jsonDetail := some none }

/-- C1 (code bug evidence): with a draft in preview, a first Accept whose
`createCard` succeeds (card-1) and whose `acceptCard` fails leaves the page in
`preview` with no stored card id, and the retry then issues a second
`createCard` (card-2): the session makes two `createCard` calls in total,
contradicting the claim that a retry only retries `acceptCard` and that
exactly one `createCard` call is made per session. -/
theorem accept_retry_repeats_createCard :
    (handleAccept previewState (Except.ok "card-1")
        (Except.error "network error")).2.createCardCalls
      + (handleAccept
          (handleAccept previewState (Except.ok "card-1")
            (Except.error "network error")).1
          (Except.ok "card-2") (Except.ok ())).2.createCardCalls = 2
    ∧ (handleAccept previewState (Except.ok "card-1")
        (Except.error "network error")).1.phase = Phase.preview := by
  exact ⟨rfl, rfl⟩

/-- C2: a successful translate response with exactly one candidate is
formatted at once — the phase trace is translating, formatting, then (on
formatting success) preview, never visiting choosing, and the final state is
`preview` with that candidate chosen; a successful response with two or more
candidates always visits `choosing`, where the run ends. -/
theorem auto_advance_rule (s : TState) (opt : TranslationOption) (d : CardData)
    (l : List TranslationOption) (fr : Except String CardData)
    (hl : 2 ≤ l.length) :
    loadTranslationsTrace (Except.ok [opt]) (Except.ok d)
        = [Phase.translating, Phase.formatting, Phase.preview]
    ∧ Phase.choosing ∉ loadTranslationsTrace (Except.ok [opt]) (Except.ok d)
    ∧ (loadTranslations s (Except.ok [opt]) (Except.ok d)).phase = Phase.preview
    ∧ (loadTranslations s (Except.ok [opt]) (Except.ok d)).chosenTranslation
        = some opt
    ∧ Phase.choosing ∈ loadTranslationsTrace (Except.ok l) fr
    ∧ (loadTranslations s (Except.ok l) fr).phase = Phase.choosing := by
  rcases l with _ | ⟨a, l⟩
  · simp at hl
  rcases l with _ | ⟨b, l⟩
  · simp at hl
  refine ⟨rfl, ?_, rfl, rfl, ?_, rfl⟩
  · show Phase.choosing ∉ [Phase.translating, Phase.formatting, Phase.preview]
    decide
  · show Phase.choosing ∈ [Phase.translating, Phase.choosing]
    decide

/-- C2 witness: with two concrete candidates, the choosing phase is visited. -/
theorem auto_advance_rule_witness :
    Phase.choosing ∈ loadTranslationsTrace
      (Except.ok [sampleOption, sampleOption]) (Except.ok sampleDraft) :=
  (auto_advance_rule initialTState sampleOption sampleDraft
    [sampleOption, sampleOption] (Except.ok sampleDraft)
    (by decide)).2.2.2.2.1

/-- C4: with a deck selected, a failed duplicate check is swallowed — the
tapped word is passed to `onWordSelected`, the page navigates to the
translate route (whose page mounts in the `translating` phase), the
`checking` flag is cleared (no stall) and no duplicate warning is stored;
`WordSelectState` has no error field at all, so the failure cannot surface
as a blocking error. -/
theorem duplicate_check_failure_proceeds (s : WordSelectState)
    (deckId word e : String) (hd : deckId ≠ "") :
    handleWordClick s deckId word (Except.error e)
      = { state := { checking := none, duplicate := none },
          selectedWord := some word,
          navigatedToTranslate := true }
    ∧ initialTState.phase = Phase.translating := by
  refine ⟨?_, rfl⟩
  simp [handleWordClick, hd]

/-- C4 witness: a concrete failed duplicate check on the word Hund with a
deck selected still selects the word and navigates to translation. -/
theorem duplicate_check_failure_proceeds_witness :
    handleWordClick idleWordSelectState "deck-1" "Hund" (Except.error "boom")
      = { state := { checking := none, duplicate := none },
          selectedWord := some "Hund",
          navigatedToTranslate := true }
    ∧ initialTState.phase = Phase.translating :=
  duplicate_check_failure_proceeds idleWordSelectState "deck-1" "Hund" "boom"
    (by decide)

/-- C5 counterexample: a successful translate response with zero candidates
leaves the error state empty — no `TranslationFailed` (nor any other) error
is surfaced, and the choosing view shows no error banner — while the engine
enters `choosing` with an empty candidate list, contradicting the claim that
the engine surfaces a `TranslationFailed` error on zero candidates. -/
theorem zero_candidates_no_error_surfaced :
    (loadTranslations initialTState (Except.ok [])
        (Except.error "unused")).error = ""
    ∧ (loadTranslations initialTState (Except.ok [])
        (Except.error "unused")).phase = Phase.choosing
    ∧ (renderChoosingView (loadTranslations initialTState (Except.ok [])
        (Except.error "unused"))).shownError = none := by
  exact ⟨rfl, rfl, rfl⟩

/-- C5 amended: on a zero-candidate success the engine enters `choosing` with
an empty candidate list and an empty error string (no error surfaced); on a
rejected translate call it enters `choosing` with the failure message as the
error.  In both cases the choosing view offers the back-to-word-selection
button, so the word-selection context stays reachable and there is no dead
end (and the transition function is total, so no crash). -/
theorem zero_candidates_recovery (s : TState) (fr : Except String CardData)
    (m : String) :
    (loadTranslations s (Except.ok []) fr).phase = Phase.choosing
    ∧ (loadTranslations s (Except.ok []) fr).error = ""
    ∧ (loadTranslations s (Except.ok []) fr).translations = []
    ∧ (renderChoosingView (loadTranslations s (Except.ok []) fr)).backToWords
        = true
    ∧ (loadTranslations s (Except.error m) fr).phase = Phase.choosing
    ∧ (loadTranslations s (Except.error m) fr).error = m := by
  exact ⟨rfl, rfl, rfl, rfl, rfl, rfl⟩

/-- C3 counterexample: with no credential in session state, `request` still
issues the fetch — with no Authorization header — and on a 2xx response even
completes without any failure at all, contradicting the claim that a
protected call without a credential fails fast with Unauthenticated before
any network call is attempted. -/
theorem request_without_credential_still_fetches :
    (request (initAuthState none) "/cards" sampleOkResponse).fetchIssued = true
    ∧ (request (initAuthState none) "/cards" sampleOkResponse).authHeader
        = none
    ∧ (request (initAuthState none) "/cards" sampleOkResponse).thrownMessage
        = none := by
  exact ⟨rfl, rfl, rfl⟩

/-- C3 amended: `request` never fail-fasts on a missing credential — the
fetch is always issued, merely without an Authorization header when no truthy
token is present.  Unauthenticated handling is instead response-driven (a 401
on a non-login path clears the credential and redirects to the login page)
and route-driven (`ProtectedRoute` redirects to the login page when no token
is present, before any protected page renders). -/
theorem request_auth_behaviour (path : String) (res : HttpResponse)
    (hok : res.ok = false) (h4 : res.status = 401)
    (hp : path.startsWith "/auth/login" = false) :
    (request (initAuthState none) path res).fetchIssued = true
    ∧ (request (initAuthState none) path res).authHeader = none
    ∧ (request (initAuthState (some "tok")) path res).auth.authToken = none
    ∧ (request (initAuthState (some "tok")) path res).redirectedToLogin = true
    ∧ protectedRoute none = RouteElement.redirectToLogin := by
  refine ⟨?_, ?_, ?_, ?_, rfl⟩ <;>
    simp [request, initAuthState, setToken, authorizationHeader,
      jsStringTruthy, hok, h4, hp]

/-- C3 amended witness: a concrete 401 response on the cards path clears the
credential and redirects to the login page. -/
theorem request_auth_behaviour_witness :
    (request (initAuthState (some "tok")) "/cards"
        sample401Response).redirectedToLogin = true :=
  (request_auth_behaviour "/cards" sample401Response rfl rfl rfl).2.2.2.1

/-- C6: every Add Native Translation invocation with a chosen candidate and a
truthy native language that formats successfully stores the newly formatted
draft as the one `cardData` value, replacing the previous draft wholesale
(the state holds at most one draft by construction, and after the call it
holds exactly the new one); two consecutive invocations leave exactly the
second draft. -/
theorem add_native_replaces_draft (s : TState) (chosen : TranslationOption)
    (native : String) (d1 d2 : CardData)
    (hc : s.chosenTranslation = some chosen) (hn : native ≠ "") :
    (handleAddNativeTranslation s (Except.ok (some native))
        (Except.ok d1)).cardData = some d1
    ∧ (handleAddNativeTranslation
        (handleAddNativeTranslation s (Except.ok (some native)) (Except.ok d1))
        (Except.ok (some native)) (Except.ok d2)).cardData = some d2 := by
  have htr : jsStringTruthy (some native) = true := by
    simp [jsStringTruthy, hn]
  constructor
  · simp [handleAddNativeTranslation, hc, htr, formatWithTranslation]
  · simp [handleAddNativeTranslation, hc, htr, formatWithTranslation]

/-- C6 witness: two concrete invocations from the preview state leave exactly
the second draft. -/
theorem add_native_replaces_draft_witness :
    (handleAddNativeTranslation previewState (Except.ok (some "Spanish"))
        (Except.ok sampleDraft)).cardData = some sampleDraft
    ∧ (handleAddNativeTranslation
        (handleAddNativeTranslation previewState (Except.ok (some "Spanish"))
          (Except.ok sampleDraft))
        (Except.ok (some "Spanish")) (Except.ok sampleDraft2)).cardData
        = some sampleDraft2 :=
  add_native_replaces_draft previewState sampleOption "Spanish" sampleDraft
    sampleDraft2 rfl (by decide)

/-- C7 (spec-modelled): every successful run of the translate service returns
an ordered candidate sequence of length 1 to 3, and every failing run fails
with `TranslationFailed`. -/
theorem translate_contract (raw : List TranslationOption) :
    (∀ out, translateService raw = Except.ok out
        → 1 ≤ out.length ∧ out.length ≤ 3)
    ∧ (∀ e, translateService raw = Except.error e
        → e = ApiFailure.TranslationFailed) := by
  unfold translateService
  by_cases h : 1 ≤ raw.length ∧ raw.length ≤ 3
  · rw [if_pos h]
    constructor
    · intro out hout
      cases hout
      exact h
    · intro e he
      cases he
  · rw [if_neg h]
    constructor
    · intro out hout
      cases hout
    · intro e he
      cases he
      rfl

/-- C7 witness: a concrete successful translate run with one candidate has a
length between 1 and 3. -/
theorem translate_contract_witness :
    1 ≤ [sampleOption].length ∧ [sampleOption].length ≤ 3 :=
  (translate_contract [sampleOption]).1 [sampleOption] rfl

/-- C8 counterexample: while an Accept run is awaiting `createCard` or
`acceptCard` (`saving` is set for its whole duration), the Add Native
Translation button is still enabled, so a new user intent is accepted and
fires its network calls concurrently with the pending one — contradicting
the claim that every new intent is ignored or deferred while a call is
pending. -/
theorem intent_accepted_while_call_pending :
    savingPreviewState.saving = true
    ∧ previewIntentEnabled savingPreviewState PreviewIntent.addNative
        = true := by
  exact ⟨rfl, rfl⟩

/-- C8 amended: the in-flight guard is per action, not per session — an
accepted Accept click implies no Accept run is pending (`saving` false), so
two `createCard` calls are never in flight together, an accepted Add Native
click implies no Add Native run is pending, and an accepted word tap implies
no duplicate check is pending; intents for an action other than the pending
one are not blocked, and Reject is never blocked. -/
theorem per_action_inflight_guard (s : TState) (w : WordSelectState) :
    (previewIntentEnabled s PreviewIntent.accept = true → s.saving = false)
    ∧ (previewIntentEnabled s PreviewIntent.addNative = true
        → s.addingNative = false)
    ∧ (wordButtonEnabled w = true → w.checking = none)
    ∧ previewIntentEnabled s PreviewIntent.reject = true := by
  refine ⟨?_, ?_, ?_, rfl⟩
  · simp [previewIntentEnabled]
  · simp [previewIntentEnabled]
  · simp [wordButtonEnabled]

/-- C8 amended witness: in the concrete idle preview state an accepted Accept
click certifies that no Accept run is pending. -/
theorem per_action_inflight_guard_witness :
    previewState.saving = false :=
  (per_action_inflight_guard previewState idleWordSelectState).1 rfl

/-- C9 counterexample: `setToken` with the non-null empty-string token keeps
it as the in-memory credential while removing the durable entry, so the
in-memory credential and the stored value disagree — contradicting the claim
that every non-null token becomes both. -/
theorem setToken_empty_string_desync :
    (setToken (some "")).authToken = some ""
    ∧ (setToken (some "")).storedToken = none := by
  exact ⟨rfl, rfl⟩

/-- C9 amended: for every non-null, non-empty token, `setToken` writes the
token to both the in-memory credential and the durable store; `setToken` with
null clears both; module start-up initializes the in-memory credential from
the durable store, so a truthy credential survives a process restart.  (An
empty-string token is the one exception: it stays only in memory, is treated
as absent by every consumer through JavaScript truthiness, and does not
survive a restart.) -/
theorem setToken_sync (t : String) (stored : Option String) (ht : t ≠ "") :
    setToken (some t) = { authToken := some t, storedToken := some t }
    ∧ setToken none = { authToken := none, storedToken := none }
    ∧ (initAuthState stored).authToken = stored
    ∧ initAuthState (setToken (some t)).storedToken
        = { authToken := some t, storedToken := some t } := by
  have htr : jsStringTruthy (some t) = true := by
    simp [jsStringTruthy, ht]
  refine ⟨?_, rfl, rfl, ?_⟩ <;> simp [setToken, initAuthState, htr]

/-- C9 amended witness: a concrete non-empty token is written to both the
in-memory credential and the durable store. -/
theorem setToken_sync_witness :
    setToken (some "tok-1")
      = { authToken := some "tok-1", storedToken := some "tok-1" } :=
  (setToken_sync "tok-1" none (by decide)).1

/-- C10 counterexample: a non-2xx response whose parsed body lacks a detail
field and whose status text is empty (an HTTP/2 response carries no reason
phrase) makes `request` throw an Error whose message is the empty string —
contradicting the claim that the thrown error always carries a non-empty
message. -/
theorem thrown_message_can_be_empty :
    (request (initAuthState (some "tok")) "/cards"
        emptyStatusTextResponse).thrownMessage = some "" := by
  exact rfl

/-- C10 amended: for every non-2xx response whose body is not parseable JSON,
whose parsed body lacks a detail field, or whose detail is the empty string,
the thrown message is exactly the HTTP status text — hence it is non-empty
exactly when the status text is. -/
theorem thrown_message_falls_back_to_statusText (auth : AuthState)
    (path : String) (res : HttpResponse) (hok : res.ok = false)
    (hbody : res.jsonDetail = none ∨ res.jsonDetail = some none
      ∨ res.jsonDetail = some (some "")) :
    (request auth path res).thrownMessage = some res.statusText := by
  have hmsg : thrownErrorMessage res = res.statusText := by
    rcases hbody with h | h | h <;> simp [thrownErrorMessage, errorDetail, h]
  rw [request, if_neg (by simp [hok])]
  split <;> simp [hmsg]

/-- C10 amended witness: a concrete 500 response with an unparseable body
throws with the status text as the message. -/
theorem thrown_message_falls_back_to_statusText_witness :
    (request (initAuthState (some "tok")) "/cards"
        sample500Response).thrownMessage = some "Internal Server Error" :=
  thrown_message_falls_back_to_statusText (initAuthState (some "tok"))
    "/cards" sample500Response rfl (Or.inl rfl)

end AnkiTranslator
